import Mathlib

set_option autoImplicit false

/-!
Verification of the authenticated transport core of the cybership-carrier
gateway: the UPS token lifecycle manager (`UpsAuthClient`), the authenticated
request executor (`HttpClient`), and the rating operation capability
(`UpsRatingOperation`), together with the shared structured-error taxonomy.

The TypeScript sources are shallowly embedded:
- JSON values are modelled by the inductive `Json` (numeric leaves are
  modelled as integers; no claim inspects a fractional value).
- Thrown JavaScript values are modelled by `Thrown`; axios errors carry an
  optional response (status and body), and a thrown value that is not an
  `Error` instance is the constructor `Thrown.nonError`.
- Network I/O is modelled by an oracle: the k-th auth-endpoint call and the
  k-th transport call receive the oracle's k-th prescribed outcome.
- The mutable token cache and the observable call counts (auth network
  calls, transport calls, `accessToken`/`clearToken` invocations, and the
  headers of every transport attempt) are threaded through a `World` record.
- Library-generated zod error messages are modelled by fixed marker strings;
  no property depends on their text.
-/

/-- JSON values; numbers are modelled as integers. -/
inductive Json where
  | null : Json
  | bool (b : Bool) : Json
  | num (n : Int) : Json
  | str (s : String) : Json
  | arr (xs : List Json) : Json
  | obj (fields : List (String × Json)) : Json

/-- Object field lookup; `none` on non-objects and missing keys. -/
def Json.get? : Json → String → Option Json
  | .obj fields, k => List.lookup k fields
  | _, _ => none

/-- A zod `z.string()` leaf: only string values pass. -/
def Json.asString : Json → Option String
  | .str s => some s
  | _ => none

/-- A zod `z.number()` leaf: only number values pass (no coercion). -/
def Json.asNumber : Json → Option Int
  | .num n => some n
  | _ => none

/-- A zod `z.coerce.number()` leaf: models the JavaScript `Number(x)`
coercion (strings parsed as integers, booleans as 0/1, null as 0; other
shapes fail). -/
def Json.coerceNumber : Json → Option Int
  | .num n => some n
  | .str s => s.toInt?
  | .bool true => some 1
  | .bool false => some 0
  | .null => some 0
  | _ => none

/-- The concrete error classes of `src/core/errors.ts`. `RateLimitError`
extends `CarrierApiError`; the other classes extend `AppError` directly. -/
inductive ErrClass where
  | validationError
  | authenticationError
  | operationNotFoundError
  | carrierApiError
  | rateLimitError
  deriving DecidableEq, Repr

/-- A thrown JavaScript value: an axios error (optional response carrying
status and body), a plain `Error`, a thrown non-`Error` value, or one of the
repository's `AppError` subclasses (class, `code`, message, the
`CarrierApiError` fields, and the wrapped cause). -/
inductive Thrown where
  | axios (response : Option (Nat × Json)) (message : String)
  | jsErr (message : String)
  | nonError
  | app (cls : ErrClass) (code : String) (message : String)
      (httpStatus : Option Nat) (carrierCode : Option String)
      (cause : Option Thrown)

/-- The `axios.isAxiosError` check. -/
def Thrown.isAxiosError : Thrown → Bool
  | .axios _ _ => true
  | _ => false

/-- The `instanceof Error` check: every thrown value except a non-`Error`
value is an `Error` instance. -/
def Thrown.isErrorInstance : Thrown → Bool
  | .nonError => false
  | _ => true

/-- The `instanceof CarrierApiError` check; `RateLimitError` is a subclass. -/
def Thrown.isCarrierApiError : Thrown → Bool
  | .app cls _ _ _ _ _ => cls = ErrClass.carrierApiError ∨ cls = ErrClass.rateLimitError
  | _ => false

/-- The `error.response?.status` access on a thrown value. -/
def Thrown.responseStatus : Thrown → Option Nat
  | .axios (some (s, _)) _ => some s
  | _ => none

/-- The `error.message` access (only read by the code after an
`instanceof Error` check; a non-`Error` value yields the empty string). -/
def Thrown.message : Thrown → String
  | .axios _ m => m
  | .jsErr m => m
  | .app _ _ m _ _ _ => m
  | .nonError => ""

/-- The error class of a thrown value, if it is an `AppError`. -/
def Thrown.clsOf : Thrown → Option ErrClass
  | .app cls _ _ _ _ _ => some cls
  | _ => none

/-- The `httpStatus` field of a thrown `CarrierApiError`-family value. -/
def Thrown.httpStatusOf : Thrown → Option Nat
  | .app _ _ _ st _ _ => st
  | _ => none

/-- The `carrierCode` field of a thrown `CarrierApiError`. -/
def Thrown.carrierCodeOf : Thrown → Option String
  | .app _ _ _ _ cc _ => cc
  | _ => none

/-- The `cause` option of a thrown `AppError`. -/
def Thrown.causeOf : Thrown → Option Thrown
  | .app _ _ _ _ _ c => c
  | _ => none

/-- Constructor `new ValidationError(message)`. -/
def mkValidationError (message : String) : Thrown :=
  .app .validationError "VALIDATION_ERROR" message none none none

/-- Constructor `new AuthenticationError(message, { cause })`. -/
def mkAuthenticationError (message : String) (cause : Option Thrown) : Thrown :=
  .app .authenticationError "AUTHENTICATION_ERROR" message none none cause

/-- Constructor `new CarrierApiError(message, httpStatus, carrierCode, { cause })`. -/
def mkCarrierApiError (message : String) (httpStatus : Nat)
    (carrierCode : Option String) (cause : Option Thrown) : Thrown :=
  .app .carrierApiError "CARRIER_API_ERROR" message (some httpStatus) carrierCode cause

/-- Constructor `new RateLimitError(message?, { cause })`: the message
defaults to "Rate limit exceeded", the status is fixed at 429, and the
`code` is overwritten to RATE_LIMIT_ERROR. -/
def mkRateLimitError (message : Option String) (cause : Option Thrown) : Thrown :=
  .app .rateLimitError "RATE_LIMIT_ERROR" (message.getD "Rate limit exceeded")
    (some 429) none cause

/-- Parsed shape of `TokenResponseSchema` (`UpsAuthClient.ts` lines 17-26):
all eight fields are required. -/
structure TokenResponse where
  token_type : String
  issued_at : String
  client_id : String
  access_token : String
  scope : String
  expires_in : Int
  refresh_count : Int
  status : String
  deriving DecidableEq, Repr

/-- The zod `TokenResponseSchema.parse`, returning `none` where zod throws:
every listed field must be present and well-shaped; unknown extra fields are
ignored (zod strips them). -/
def TokenResponseSchema.parse (j : Json) : Option TokenResponse := do
  let token_type ← (j.get? "token_type").bind Json.asString
  let issued_at ← (j.get? "issued_at").bind Json.asString
  let client_id ← (j.get? "client_id").bind Json.asString
  let access_token ← (j.get? "access_token").bind Json.asString
  let scope ← (j.get? "scope").bind Json.asString
  let expires_in ← (j.get? "expires_in").bind Json.coerceNumber
  guard (0 < expires_in)
  let refresh_count ← (j.get? "refresh_count").bind Json.coerceNumber
  guard (0 ≤ refresh_count)
  let status ← (j.get? "status").bind Json.asString
  pure { token_type, issued_at, client_id, access_token, scope,
         expires_in, refresh_count, status }

/-- One entry of the UPS carrier error body. -/
structure UpsErrorEntry where
  code : String
  message : String
  deriving DecidableEq, Repr

/-- Parse one `{ code, message }` record of the carrier error body. -/
def parseUpsErrorEntry (j : Json) : Option UpsErrorEntry := do
  let code ← (j.get? "code").bind Json.asString
  let message ← (j.get? "message").bind Json.asString
  pure { code, message }

/-- The zod `UpsErrorResponseSchema.safeParse`, returning the list of error
entries on success and `none` on any shape mismatch. -/
def UpsErrorResponseSchema.safeParse (j : Json) : Option (List UpsErrorEntry) := do
  let resp ← j.get? "response"
  match resp.get? "errors" with
  | some (.arr xs) => xs.mapM parseUpsErrorEntry
  | _ => none

/-- The token provider's private mutable state: `cachedToken` and
`expiresAt` (milliseconds since epoch; initially 0). -/
structure AuthState where
  cachedToken : Option String
  expiresAt : Int
  deriving DecidableEq, Repr

/-- Outcome of one network call: the resolved response body, or a thrown
value (axios rejection or local error). -/
inductive NetOutcome where
  | ok (data : Json)
  | threw (e : Thrown)

/-- The network oracle: `authNet k` is the outcome of the k-th request to the
auth endpoint, `transport k` the outcome of the k-th transport attempt of the
`HttpClient` (both 0-based, counted per `World`). -/
structure Oracle where
  authNet : Nat → NetOutcome
  transport : Nat → NetOutcome

/-- The instrumented execution state: the token provider's `AuthState` plus
observable call counts and the headers sent on each transport attempt. -/
structure World where
  auth : AuthState
  authNetCalls : Nat
  accessCalls : Nat
  clearCalls : Nat
  transportCalls : Nat
  sentHeaders : List (List (String × String))

/-- A fresh `World` with the given provider state and no calls recorded. -/
def World.init (st : AuthState) : World :=
  { auth := st, authNetCalls := 0, accessCalls := 0, clearCalls := 0,
    transportCalls := 0, sentHeaders := [] }

/-- The `EXPIRY_BUFFER_S` constant of `UpsAuthClient.ts`. -/
def EXPIRY_BUFFER_S : Int := 60

/-- Marker for the `ZodError` thrown by `TokenResponseSchema.parse`; the
message text is library-generated and modelled opaquely. -/
def zodTokenError : Thrown := .jsErr "invalid token response"

/-- The private `UpsAuthClient.toStructuredError`: a failure without a
carrier response becomes `CarrierApiError` with status 0; with a response
the carrier error body is parsed for the first `{code, message}` entry,
status 401/403 map to `AuthenticationError`, 429 to `RateLimitError`, and
any other status to `CarrierApiError` with that status and carrier code. -/
def UpsAuthClient.toStructuredError (error : Thrown) : Thrown :=
  match error with
  | .axios (some (status, data)) m =>
    let firstError := (UpsErrorResponseSchema.safeParse data).bind List.head?
    let message := match firstError with
      | some fe => fe.message
      | none => "UPS OAuth request failed (HTTP " ++ toString status ++ ")"
    let carrierCode := firstError.map UpsErrorEntry.code
    if status = 401 ∨ status = 403 then
      mkAuthenticationError message (some (.axios (some (status, data)) m))
    else if status = 429 then
      mkRateLimitError (some message) (some (.axios (some (status, data)) m))
    else
      mkCarrierApiError message status carrierCode (some (.axios (some (status, data)) m))
  | e =>
    mkCarrierApiError
      ("UPS OAuth request failed: " ++ (if e.isErrorInstance then e.message else "Unknown error"))
      0 none (if e.isErrorInstance then some e else none)

/-- The private `UpsAuthClient.authenticate`: one auth-endpoint network call;
on a resolved response the body must pass `TokenResponseSchema`, after which
the token is cached with `expiresAt = now + (expires_in - 60) * 1000`; any
failure (rejection or parse error) is mapped by `toStructuredError` and
leaves the cache untouched. The outbound request construction (URL, HTTP
Basic header) has no observable effect in this model and is absorbed into
the oracle. -/
def UpsAuthClient.authenticate (o : Oracle) (now : Int) (w : World) :
    Except Thrown String × World :=
  match o.authNet w.authNetCalls with
  | .ok data =>
    match TokenResponseSchema.parse data with
    | some parsed =>
      (.ok parsed.access_token,
        { w with authNetCalls := w.authNetCalls + 1,
                 auth := { cachedToken := some parsed.access_token,
                           expiresAt := now + (parsed.expires_in - EXPIRY_BUFFER_S) * 1000 } })
    | none =>
      (.error (UpsAuthClient.toStructuredError zodTokenError),
        { w with authNetCalls := w.authNetCalls + 1 })
  | .threw e =>
    (.error (UpsAuthClient.toStructuredError e),
      { w with authNetCalls := w.authNetCalls + 1 })

/-- `UpsAuthClient.accessToken`: a cache hit (token present and
`now < expiresAt`) returns the cached value with no network activity;
otherwise `authenticate` runs. -/
def UpsAuthClient.accessToken (o : Oracle) (now : Int) (w : World) :
    Except Thrown String × World :=
  match w.auth.cachedToken with
  | some tok =>
    if now < w.auth.expiresAt then
      (.ok tok, { w with accessCalls := w.accessCalls + 1 })
    else
      UpsAuthClient.authenticate o now { w with accessCalls := w.accessCalls + 1 }
  | none =>
    UpsAuthClient.authenticate o now { w with accessCalls := w.accessCalls + 1 }

/-- `UpsAuthClient.clearToken`: unconditionally drops the cached token and
resets `expiresAt` to 0; no network call and no failure. -/
def UpsAuthClient.clearToken (w : World) : World :=
  { w with auth := { cachedToken := none, expiresAt := 0 },
           clearCalls := w.clearCalls + 1 }

/-- The request envelope passed to `HttpClient.request` (the axios request
config): method, url, headers, and an optional body. -/
structure ReqConfig where
  method : String
  url : String
  headers : List (String × String)
  data : Option Json

/-- Models the JavaScript object spread `{ ...headers, [k]: v }`: every other
entry is kept and the key `k` is bound to `v` (key order of an object is not
observable in this model). -/
def setHeader (hs : List (String × String)) (k v : String) : List (String × String) :=
  hs.filter (fun p => p.1 ≠ k) ++ [(k, v)]

/-- The private `HttpClient.executeWithToken`: one transport call carrying
the envelope's headers with `Authorization: Bearer <token>` merged in; the
outcome is the oracle's prescription for this attempt. -/
def HttpClient.executeWithToken (o : Oracle) (config : ReqConfig) (token : String)
    (w : World) : Except Thrown Json × World :=
  ((match o.transport w.transportCalls with
    | .ok d => .ok d
    | .threw e => .error e),
   { w with transportCalls := w.transportCalls + 1,
            sentHeaders := w.sentHeaders ++
              [setHeader config.headers "Authorization" ("Bearer " ++ token)] })

/-- The `HttpClient.toStructuredError` classification: status 429 becomes
`RateLimitError`; any other present status becomes `CarrierApiError` with
that status; an axios error without a response becomes `CarrierApiError`
with status 0; a non-axios thrown value becomes `CarrierApiError` with
status 0, the cause being attached only when the value is an `Error`
instance. -/
def HttpClient.toStructuredError (error : Thrown) : Thrown :=
  if error.isAxiosError then
    match error.responseStatus with
    | some status =>
      if status = 429 then mkRateLimitError none (some error)
      else mkCarrierApiError ("HTTP " ++ toString status) status none (some error)
    | none => mkCarrierApiError error.message 0 none (some error)
  else
    mkCarrierApiError
      (if error.isErrorInstance then error.message else "Unknown HTTP error") 0 none
      (if error.isErrorInstance then some error else none)

/-- The `error.response?.status === 401` test guarding the retry path. -/
def is401 (e : Thrown) : Bool :=
  e.isAxiosError && e.responseStatus == some 401

/-- The private `HttpClient.retryWithFreshToken`: clear the token, reacquire,
and execute the transport call exactly once more; a second 401 becomes an
`AuthenticationError` wrapping that failure, any other failure is classified
by `toStructuredError`, and an error from the reacquisition itself
propagates unchanged. -/
def HttpClient.retryWithFreshToken (o : Oracle) (now : Int) (config : ReqConfig)
    (w : World) : Except Thrown Json × World :=
  match UpsAuthClient.accessToken o now (UpsAuthClient.clearToken w) with
  | (.error e, w1) => (.error e, w1)
  | (.ok freshToken, w1) =>
    match HttpClient.executeWithToken o config freshToken w1 with
    | (.ok data, w2) => (.ok data, w2)
    | (.error retryError, w2) =>
      if is401 retryError then
        (.error (mkAuthenticationError "Authentication failed after token refresh"
          (some retryError)), w2)
      else
        (.error (HttpClient.toStructuredError retryError), w2)

/-- `HttpClient.request`: acquire a token (errors from acquisition propagate
unchanged), execute the transport call, and on a 401 failure run the single
retry; any other failure is classified by `toStructuredError`. -/
def HttpClient.request (o : Oracle) (now : Int) (config : ReqConfig)
    (w : World) : Except Thrown Json × World :=
  match UpsAuthClient.accessToken o now w with
  | (.error e, w1) => (.error e, w1)
  | (.ok token, w1) =>
    match HttpClient.executeWithToken o config token w1 with
    | (.ok data, w2) => (.ok data, w2)
    | (.error err, w2) =>
      if is401 err then
        HttpClient.retryWithFreshToken o now config w2
      else
        (.error (HttpClient.toStructuredError err), w2)

/-- Domain address (`core/types.ts` AddressSchema shape). -/
structure Address where
  line1 : String
  line2 : Option String
  city : String
  stateCode : String
  postalCode : String
  countryCode : String
  deriving DecidableEq, Repr

/-- Domain package (`core/types.ts` PackageSchema shape). -/
structure Package where
  weightLbs : Int
  lengthIn : Int
  widthIn : Int
  heightIn : Int
  deriving DecidableEq, Repr

/-- Domain rate request (`core/types.ts` RateRequestSchema shape). -/
structure RateRequest where
  origin : Address
  destination : Address
  packages : List Package
  deriving DecidableEq, Repr

/-- The zod `AddressSchema` of `core/types.ts`: `line1`, `city`,
`postalCode` nonempty strings, `stateCode` and `countryCode` of length 2,
`line2` an optional string. -/
def AddressSchema.parse (j : Json) : Option Address := do
  let line1 ← (j.get? "line1").bind Json.asString
  guard (1 ≤ line1.length)
  let line2 ← match j.get? "line2" with
    | none => some none
    | some v => (Json.asString v).map some
  let city ← (j.get? "city").bind Json.asString
  guard (1 ≤ city.length)
  let stateCode ← (j.get? "stateCode").bind Json.asString
  guard (stateCode.length = 2)
  let postalCode ← (j.get? "postalCode").bind Json.asString
  guard (1 ≤ postalCode.length)
  let countryCode ← (j.get? "countryCode").bind Json.asString
  guard (countryCode.length = 2)
  pure { line1, line2, city, stateCode, postalCode, countryCode }

/-- The zod `PackageSchema` of `core/types.ts`: four positive numbers. -/
def PackageSchema.parse (j : Json) : Option Package := do
  let weightLbs ← (j.get? "weightLbs").bind Json.asNumber
  guard (0 < weightLbs)
  let lengthIn ← (j.get? "lengthIn").bind Json.asNumber
  guard (0 < lengthIn)
  let widthIn ← (j.get? "widthIn").bind Json.asNumber
  guard (0 < widthIn)
  let heightIn ← (j.get? "heightIn").bind Json.asNumber
  guard (0 < heightIn)
  pure { weightLbs, lengthIn, widthIn, heightIn }

/-- The zod `RateRequestSchema` of `core/types.ts`: origin and destination
addresses plus a nonempty package array. -/
def RateRequestSchema.parse (j : Json) : Option RateRequest := do
  let origin ← (j.get? "origin").bind AddressSchema.parse
  let destination ← (j.get? "destination").bind AddressSchema.parse
  let packages ← match j.get? "packages" with
    | some (.arr xs) => xs.mapM PackageSchema.parse
    | _ => none
  guard (1 ≤ packages.length)
  pure { origin, destination, packages }

/-- UPS wire address (`ups.types.ts` UpsAddressSchema shape). -/
structure UpsAddress where
  AddressLine : List String
  City : String
  StateProvinceCode : String
  PostalCode : String
  CountryCode : String
  deriving DecidableEq, Repr

/-- A wire object holding only a `Code` field. -/
structure UpsCodeOnly where
  Code : String
  deriving DecidableEq, Repr

/-- UPS wire packaging type. -/
structure UpsPackagingType where
  Code : String
  Description : Option String
  deriving DecidableEq, Repr

/-- UPS wire dimensions. -/
structure UpsDimensions where
  UnitOfMeasurement : UpsCodeOnly
  Length : String
  Width : String
  Height : String
  deriving DecidableEq, Repr

/-- UPS wire package weight. -/
structure UpsPackageWeight where
  UnitOfMeasurement : UpsCodeOnly
  Weight : String
  deriving DecidableEq, Repr

/-- UPS wire package. -/
structure UpsPackage where
  PackagingType : UpsPackagingType
  Dimensions : UpsDimensions
  PackageWeight : UpsPackageWeight
  deriving DecidableEq, Repr

/-- UPS wire shipper party (with account number). -/
structure UpsShipperParty where
  Name : String
  ShipperNumber : String
  Address : UpsAddress
  deriving DecidableEq, Repr

/-- UPS wire ship-to / ship-from party. -/
structure UpsParty where
  Name : String
  Address : UpsAddress
  deriving DecidableEq, Repr

/-- UPS wire shipment (`toUpsRequest` always emits the array form of
`Package` and an empty `Request` object). -/
structure UpsShipment where
  Shipper : UpsShipperParty
  ShipTo : UpsParty
  ShipFrom : UpsParty
  NumOfPieces : Option String
  Package : List UpsPackage
  deriving DecidableEq, Repr

/-- UPS wire rate request body. -/
structure UpsRateRequest where
  Shipment : UpsShipment
  deriving DecidableEq, Repr

/-- The private `toUpsAddress` of `UpsMapper.ts`: `line2` is appended only
when truthy (present and nonempty). -/
def toUpsAddress (address : Address) : UpsAddress :=
  { AddressLine :=
      [address.line1] ++
        (match address.line2 with
          | some l2 => if l2 = "" then [] else [l2]
          | none => []),
    City := address.city,
    StateProvinceCode := address.stateCode,
    PostalCode := address.postalCode,
    CountryCode := address.countryCode }

/-- The private `toUpsPackage` of `UpsMapper.ts`. -/
def toUpsPackage (pkg : Package) : UpsPackage :=
  { PackagingType := { Code := "02", Description := some "Package" },
    Dimensions :=
      { UnitOfMeasurement := { Code := "IN" },
        Length := toString pkg.lengthIn,
        Width := toString pkg.widthIn,
        Height := toString pkg.heightIn },
    PackageWeight :=
      { UnitOfMeasurement := { Code := "LBS" },
        Weight := toString pkg.weightLbs } }

/-- `toUpsRequest` of `UpsMapper.ts`. -/
def toUpsRequest (input : RateRequest) : UpsRateRequest :=
  { Shipment :=
      { Shipper := { Name := "Shipper", ShipperNumber := "",
                     Address := toUpsAddress input.origin },
        ShipTo := { Name := "Recipient", Address := toUpsAddress input.destination },
        ShipFrom := { Name := "Sender", Address := toUpsAddress input.origin },
        NumOfPieces := some (toString input.packages.length),
        Package := input.packages.map toUpsPackage } }

/-- Serialize a UPS wire address to JSON. -/
def UpsAddress.toJson (a : UpsAddress) : Json :=
  .obj [("AddressLine", .arr (a.AddressLine.map Json.str)),
        ("City", .str a.City),
        ("StateProvinceCode", .str a.StateProvinceCode),
        ("PostalCode", .str a.PostalCode),
        ("CountryCode", .str a.CountryCode)]

/-- Serialize a UPS wire package to JSON. -/
def UpsPackage.toJson (p : UpsPackage) : Json :=
  .obj [("PackagingType", .obj
          ([("Code", .str p.PackagingType.Code)] ++
            (match p.PackagingType.Description with
              | some d => [("Description", Json.str d)]
              | none => []))),
        ("Dimensions", .obj
          [("UnitOfMeasurement", .obj [("Code", .str p.Dimensions.UnitOfMeasurement.Code)]),
           ("Length", .str p.Dimensions.Length),
           ("Width", .str p.Dimensions.Width),
           ("Height", .str p.Dimensions.Height)]),
        ("PackageWeight", .obj
          [("UnitOfMeasurement", .obj [("Code", .str p.PackageWeight.UnitOfMeasurement.Code)]),
           ("Weight", .str p.PackageWeight.Weight)])]

/-- Serialize the UPS wire rate request body to JSON (the `Request` object
is emitted empty, as `toUpsRequest` builds it). -/
def UpsRateRequest.toJson (r : UpsRateRequest) : Json :=
  .obj [("RateRequest", .obj
    [("Request", .obj []),
     ("Shipment", .obj
       ([("Shipper", .obj
            [("Name", .str r.Shipment.Shipper.Name),
             ("ShipperNumber", .str r.Shipment.Shipper.ShipperNumber),
             ("Address", r.Shipment.Shipper.Address.toJson)]),
         ("ShipTo", .obj
            [("Name", .str r.Shipment.ShipTo.Name),
             ("Address", r.Shipment.ShipTo.Address.toJson)]),
         ("ShipFrom", .obj
            [("Name", .str r.Shipment.ShipFrom.Name),
             ("Address", r.Shipment.ShipFrom.Address.toJson)])] ++
        (match r.Shipment.NumOfPieces with
          | some n => [("NumOfPieces", Json.str n)]
          | none => []) ++
        [("Package", Json.arr (r.Shipment.Package.map UpsPackage.toJson))]))])]

/-- UPS wire service (`UpsServiceSchema`). -/
structure UpsService where
  Code : String
  Description : Option String
  deriving DecidableEq, Repr

/-- UPS wire charge (`UpsMonetaryValueSchema`); the monetary value stays a
string on the wire. -/
structure UpsMonetaryValue where
  CurrencyCode : String
  MonetaryValue : String
  deriving DecidableEq, Repr

/-- UPS wire guaranteed-delivery block. -/
structure UpsGuaranteedDelivery where
  BusinessDaysInTransit : Option String
  ScheduledDeliveryDate : Option String
  deriving DecidableEq, Repr

/-- UPS wire arrival block. -/
structure UpsArrival where
  Date : Option String
  deriving DecidableEq, Repr

/-- UPS wire estimated-arrival block. -/
structure UpsEstimatedArrival where
  BusinessDaysInTransit : Option String
  Arrival : Option UpsArrival
  deriving DecidableEq, Repr

/-- UPS wire service summary block. -/
structure UpsServiceSummary where
  EstimatedArrival : Option UpsEstimatedArrival
  deriving DecidableEq, Repr

/-- UPS wire time-in-transit block. -/
structure UpsTimeInTransit where
  ServiceSummary : Option UpsServiceSummary
  deriving DecidableEq, Repr

/-- UPS wire rated shipment (`UpsRatedShipmentSchema`). -/
structure UpsRatedShipment where
  Service : UpsService
  TotalCharges : UpsMonetaryValue
  GuaranteedDelivery : Option UpsGuaranteedDelivery
  TimeInTransit : Option UpsTimeInTransit
  deriving DecidableEq, Repr

/-- UPS wire response status block. -/
structure UpsResponseStatus where
  Code : String
  Description : String
  deriving DecidableEq, Repr

/-- Parsed `UpsRateResponseSchema` body: a response status and the rated
shipments. -/
structure UpsRateResponse where
  ResponseStatus : UpsResponseStatus
  RatedShipment : List UpsRatedShipment
  deriving DecidableEq, Repr

/-- Parse a zod optional object field: an absent key is accepted as `none`,
a present value must satisfy the inner parser. -/
def optField {α : Type} (j : Json) (k : String) (f : Json → Option α) : Option (Option α) :=
  match j.get? k with
  | none => some none
  | some v => (f v).map some

/-- Parse the optional `Arrival` object. -/
def parseUpsArrival (j : Json) : Option UpsArrival := do
  let date ← optField j "Date" Json.asString
  pure { Date := date }

/-- Parse the optional `EstimatedArrival` object. -/
def parseUpsEstimatedArrival (j : Json) : Option UpsEstimatedArrival := do
  let days ← optField j "BusinessDaysInTransit" Json.asString
  let arrival ← optField j "Arrival" parseUpsArrival
  pure { BusinessDaysInTransit := days, Arrival := arrival }

/-- Parse the optional `ServiceSummary` object. -/
def parseUpsServiceSummary (j : Json) : Option UpsServiceSummary := do
  let ea ← optField j "EstimatedArrival" parseUpsEstimatedArrival
  pure { EstimatedArrival := ea }

/-- Parse the optional `TimeInTransit` object. -/
def parseUpsTimeInTransit (j : Json) : Option UpsTimeInTransit := do
  let ss ← optField j "ServiceSummary" parseUpsServiceSummary
  pure { ServiceSummary := ss }

/-- Parse a `Service` object. -/
def parseUpsService (j : Json) : Option UpsService := do
  let code ← (j.get? "Code").bind Json.asString
  let descr ← optField j "Description" Json.asString
  pure { Code := code, Description := descr }

/-- Parse a `TotalCharges` object. -/
def parseUpsMonetaryValue (j : Json) : Option UpsMonetaryValue := do
  let cc ← (j.get? "CurrencyCode").bind Json.asString
  let mv ← (j.get? "MonetaryValue").bind Json.asString
  pure { CurrencyCode := cc, MonetaryValue := mv }

/-- Parse the optional `GuaranteedDelivery` object. -/
def parseUpsGuaranteedDelivery (j : Json) : Option UpsGuaranteedDelivery := do
  let days ← optField j "BusinessDaysInTransit" Json.asString
  let date ← optField j "ScheduledDeliveryDate" Json.asString
  pure { BusinessDaysInTransit := days, ScheduledDeliveryDate := date }

/-- Parse one rated shipment. -/
def parseUpsRatedShipment (j : Json) : Option UpsRatedShipment := do
  let service ← (j.get? "Service").bind parseUpsService
  let charges ← (j.get? "TotalCharges").bind parseUpsMonetaryValue
  let gd ← optField j "GuaranteedDelivery" parseUpsGuaranteedDelivery
  let tit ← optField j "TimeInTransit" parseUpsTimeInTransit
  pure { Service := service, TotalCharges := charges,
         GuaranteedDelivery := gd, TimeInTransit := tit }

/-- The zod `UpsRateResponseSchema.parse`, returning `none` where zod
throws. -/
def UpsRateResponseSchema.parse (j : Json) : Option UpsRateResponse := do
  let rr ← j.get? "RateResponse"
  let resp ← rr.get? "Response"
  let rs ← (resp.get? "ResponseStatus")
  let code ← (rs.get? "Code").bind Json.asString
  let descr ← (rs.get? "Description").bind Json.asString
  let shipments ← match rr.get? "RatedShipment" with
    | some (.arr xs) => xs.mapM parseUpsRatedShipment
    | _ => none
  pure { ResponseStatus := { Code := code, Description := descr },
         RatedShipment := shipments }

/-- Domain rate quote (`core/types.ts` RateQuoteSchema shape). The
`totalChargeUSD` field carries the source string fed to
`Number.parseFloat`, and `estimatedDeliveryDays` the string fed to
`Number.parseInt`: JavaScript floating-point numbers are modelled by the
wire strings they are parsed from, which no claim inspects numerically. -/
structure RateQuote where
  carrier : String
  serviceCode : String
  serviceName : String
  totalChargeUSD : String
  estimatedDeliveryDays : Option String
  guaranteedDeliveryDate : Option String
  deriving DecidableEq, Repr

/-- `fromUpsResponse` of `UpsMapper.ts`: each rated shipment becomes a
quote; the transit-days and delivery-date fields are filled from the
guaranteed-delivery block, falling back to the time-in-transit block. -/
def fromUpsResponse (shipments : List UpsRatedShipment) : List RateQuote :=
  shipments.map fun s =>
    { carrier := "UPS",
      serviceCode := s.Service.Code,
      serviceName := s.Service.Description.getD s.Service.Code,
      totalChargeUSD := s.TotalCharges.MonetaryValue,
      estimatedDeliveryDays :=
        (s.GuaranteedDelivery.bind UpsGuaranteedDelivery.BusinessDaysInTransit).orElse
          (fun _ => ((s.TimeInTransit.bind UpsTimeInTransit.ServiceSummary).bind
            UpsServiceSummary.EstimatedArrival).bind
              UpsEstimatedArrival.BusinessDaysInTransit),
      guaranteedDeliveryDate :=
        (s.GuaranteedDelivery.bind UpsGuaranteedDelivery.ScheduledDeliveryDate).orElse
          (fun _ => (((s.TimeInTransit.bind UpsTimeInTransit.ServiceSummary).bind
            UpsServiceSummary.EstimatedArrival).bind
              UpsEstimatedArrival.Arrival).bind UpsArrival.Date) }

/-- Marker for the `ZodError` thrown by `RateRequestSchema.safeParse` (its
message is passed to `ValidationError`); library-generated, modelled
opaquely. -/
def zodRateRequestError : Thrown := .jsErr "invalid rate request"

/-- Marker for the `ZodError` thrown by `UpsRateResponseSchema.parse`;
library-generated, modelled opaquely. -/
def zodRateResponseError : Thrown := .jsErr "invalid rating response"

/-- The private `UpsRatingOperation.fetchRates`: one `HttpClient.request`
to `/api/rating/v2409/{requestOption}` followed by the response-schema
parse; a caught `CarrierApiError` (including its `RateLimitError` subclass)
is rethrown unchanged, and every other caught error is wrapped as
`CarrierApiError` with status 0, message "UPS rating request failed", and
the original error as cause when it is an `Error` instance. -/
def UpsRatingOperation.fetchRates (requestOption : String) (o : Oracle) (now : Int)
    (body : Json) (w : World) : Except Thrown UpsRateResponse × World :=
  match HttpClient.request o now
    { method := "POST", url := "/api/rating/v2409/" ++ requestOption,
      headers := [], data := some body } w with
  | (.ok data, w1) =>
    match UpsRateResponseSchema.parse data with
    | some parsed => (.ok parsed, w1)
    | none =>
      (.error (mkCarrierApiError "UPS rating request failed" 0 none
        (some zodRateResponseError)), w1)
  | (.error e, w1) =>
    if e.isCarrierApiError then (.error e, w1)
    else
      (.error (mkCarrierApiError "UPS rating request failed" 0 none
        (if e.isErrorInstance then some e else none)), w1)

/-- `UpsRatingOperation.execute`: validate the domain input with
`RateRequestSchema` before any network activity (invalid input throws
`ValidationError` immediately); on success map to the wire shape, fetch the
rates, and map the rated shipments back to domain quotes. -/
def UpsRatingOperation.execute (requestOption : String) (o : Oracle) (now : Int)
    (input : Json) (w : World) : Except Thrown (List RateQuote) × World :=
  match RateRequestSchema.parse input with
  | none => (.error (mkValidationError zodRateRequestError.message), w)
  | some parsed =>
    match UpsRatingOperation.fetchRates requestOption o now
      (toUpsRequest parsed).toJson w with
    | (.error e, w1) => (.error e, w1)
    | (.ok data, w1) => (.ok (fromUpsResponse data.RatedShipment), w1)

/-- `authenticate` leaves the transport-side instrumentation untouched and
performs exactly one auth network call. -/
theorem authenticate_frame (o : Oracle) (now : Int) (w : World) :
    (UpsAuthClient.authenticate o now w).2.transportCalls = w.transportCalls ∧
    (UpsAuthClient.authenticate o now w).2.clearCalls = w.clearCalls ∧
    (UpsAuthClient.authenticate o now w).2.sentHeaders = w.sentHeaders ∧
    (UpsAuthClient.authenticate o now w).2.accessCalls = w.accessCalls ∧
    (UpsAuthClient.authenticate o now w).2.authNetCalls = w.authNetCalls + 1 := by
  unfold UpsAuthClient.authenticate
  cases ho : o.authNet w.authNetCalls with
  | ok data => cases hp : TokenResponseSchema.parse data <;> simp [hp]
  | threw e => simp

/-- `accessToken` leaves the transport-side instrumentation untouched,
records exactly one `accessToken` invocation, and performs at most one auth
network call. -/
theorem accessToken_frame (o : Oracle) (now : Int) (w : World) :
    (UpsAuthClient.accessToken o now w).2.transportCalls = w.transportCalls ∧
    (UpsAuthClient.accessToken o now w).2.clearCalls = w.clearCalls ∧
    (UpsAuthClient.accessToken o now w).2.sentHeaders = w.sentHeaders ∧
    (UpsAuthClient.accessToken o now w).2.accessCalls = w.accessCalls + 1 := by
  unfold UpsAuthClient.accessToken
  cases hc : w.auth.cachedToken with
  | none =>
    have h := authenticate_frame o now { w with accessCalls := w.accessCalls + 1 }
    simpa using ⟨h.1, h.2.1, h.2.2.1, h.2.2.2.1⟩
  | some tok =>
    by_cases hlt : now < w.auth.expiresAt
    · simp [hlt]
    · have h := authenticate_frame o now { w with accessCalls := w.accessCalls + 1 }
      simp only [if_neg hlt]
      simpa using ⟨h.1, h.2.1, h.2.2.1, h.2.2.2.1⟩

/-- Cache-hit characterization of `accessToken`: a present token with
`now < expiresAt` is returned as-is and only the invocation counter moves. -/
theorem accessToken_cacheHit (o : Oracle) (now : Int) (w : World) (tok : String)
    (h1 : w.auth.cachedToken = some tok) (h2 : now < w.auth.expiresAt) :
    UpsAuthClient.accessToken o now w =
      (Except.ok tok, { w with accessCalls := w.accessCalls + 1 }) := by
  unfold UpsAuthClient.accessToken
  rw [h1]
  simp [h2]

/-- Cache-miss characterization of `accessToken` (no cached token). -/
theorem accessToken_missNone (o : Oracle) (now : Int) (w : World)
    (h : w.auth.cachedToken = none) :
    UpsAuthClient.accessToken o now w =
      UpsAuthClient.authenticate o now { w with accessCalls := w.accessCalls + 1 } := by
  unfold UpsAuthClient.accessToken
  rw [h]

/-- Expired-cache characterization of `accessToken` (token present but
`now < expiresAt` fails). -/
theorem accessToken_missStale (o : Oracle) (now : Int) (w : World) (tok : String)
    (h1 : w.auth.cachedToken = some tok) (h2 : ¬ now < w.auth.expiresAt) :
    UpsAuthClient.accessToken o now w =
      UpsAuthClient.authenticate o now { w with accessCalls := w.accessCalls + 1 } := by
  unfold UpsAuthClient.accessToken
  rw [h1]
  simp [h2]

/-- Successful-authentication characterization: the oracle resolves with a
body accepted by the token schema, so the token is cached with the buffered
expiry and returned. -/
theorem authenticate_ok (o : Oracle) (now : Int) (w : World) (data : Json)
    (p : TokenResponse)
    (h1 : o.authNet w.authNetCalls = NetOutcome.ok data)
    (h2 : TokenResponseSchema.parse data = some p) :
    UpsAuthClient.authenticate o now w =
      (Except.ok p.access_token,
        { w with authNetCalls := w.authNetCalls + 1,
                 auth := { cachedToken := some p.access_token,
                           expiresAt := now + (p.expires_in - EXPIRY_BUFFER_S) * 1000 } }) := by
  unfold UpsAuthClient.authenticate
  rw [h1]
  simp [h2]

/-- Rejected-authentication characterization: the oracle's outcome is a
thrown value, which is classified by the provider's `toStructuredError`
while the cache is left untouched. -/
theorem authenticate_threw (o : Oracle) (now : Int) (w : World) (e : Thrown)
    (h : o.authNet w.authNetCalls = NetOutcome.threw e) :
    UpsAuthClient.authenticate o now w =
      (Except.error (UpsAuthClient.toStructuredError e),
        { w with authNetCalls := w.authNetCalls + 1 }) := by
  unfold UpsAuthClient.authenticate
  rw [h]

/-- Malformed-success characterization: the oracle resolves but the body is
rejected by the token schema; the parse failure is classified and the cache
is left untouched. -/
theorem authenticate_badBody (o : Oracle) (now : Int) (w : World) (data : Json)
    (h1 : o.authNet w.authNetCalls = NetOutcome.ok data)
    (h2 : TokenResponseSchema.parse data = none) :
    UpsAuthClient.authenticate o now w =
      (Except.error (UpsAuthClient.toStructuredError zodTokenError),
        { w with authNetCalls := w.authNetCalls + 1 }) := by
  unfold UpsAuthClient.authenticate
  rw [h1]
  simp [h2]

/-- An arbitrary oracle for witnesses that must not touch the network. -/
def oracleNone : Oracle :=
  { authNet := fun _ => NetOutcome.threw Thrown.nonError,
    transport := fun _ => NetOutcome.threw Thrown.nonError }

/-- A provider state holding a cached token valid until instant 5000. -/
def stCached : AuthState := { cachedToken := some "tok_cached", expiresAt := 5000 }

/-- C3: with a cached token and the current time strictly before its
`expiresAt`, `accessToken()` returns the cached value, performs no network
call (the auth-call counter and provider state are unchanged: only the
invocation counter moves), and leaves the provider state as it was. -/
theorem c3_cache_hit (o : Oracle) (now : Int) (w : World) (tok : String)
    (h1 : w.auth.cachedToken = some tok) (h2 : now < w.auth.expiresAt) :
    UpsAuthClient.accessToken o now w =
      (Except.ok tok, { w with accessCalls := w.accessCalls + 1 }) :=
  accessToken_cacheHit o now w tok h1 h2

/-- Witness for C3 at a concrete cached state and time 0. -/
theorem c3_cache_hit_witness :
    (World.init stCached).auth.cachedToken = some "tok_cached" ∧
    (0 : Int) < (World.init stCached).auth.expiresAt ∧
    UpsAuthClient.accessToken oracleNone 0 (World.init stCached) =
      (Except.ok "tok_cached",
        { World.init stCached with accessCalls := (World.init stCached).accessCalls + 1 }) :=
  ⟨rfl, by decide,
    c3_cache_hit oracleNone 0 (World.init stCached) "tok_cached" rfl (by decide)⟩

/-- C4: `clearToken()` makes no network call and never fails (it is a total
state update), empties the cache, resets `expiresAt` to 0 so that the
validity check `now < expiresAt` fails at every non-negative instant, and
the next `accessToken()` call therefore performs an authentication (exactly
one auth network call), regardless of the discarded token's nominal
expiry. -/
theorem c4_clear_token (o : Oracle) (now : Int) (w : World) (h : 0 ≤ now) :
    (UpsAuthClient.clearToken w).auth.cachedToken = none ∧
    (UpsAuthClient.clearToken w).auth.expiresAt = 0 ∧
    (UpsAuthClient.clearToken w).authNetCalls = w.authNetCalls ∧
    ¬ now < (UpsAuthClient.clearToken w).auth.expiresAt ∧
    (UpsAuthClient.accessToken o now (UpsAuthClient.clearToken w)).2.authNetCalls =
      w.authNetCalls + 1 := by
  refine ⟨rfl, rfl, rfl, ?_, ?_⟩
  · exact not_lt.mpr h
  · rw [accessToken_missNone o now (UpsAuthClient.clearToken w) rfl]
    exact (authenticate_frame o now _).2.2.2.2

/-- Witness for C4 at a concrete world holding a still-valid token. -/
theorem c4_clear_token_witness :
    (0 : Int) ≤ 0 ∧
    (UpsAuthClient.clearToken (World.init stCached)).auth.cachedToken = none ∧
    (UpsAuthClient.clearToken (World.init stCached)).auth.expiresAt = 0 ∧
    (UpsAuthClient.clearToken (World.init stCached)).authNetCalls =
      (World.init stCached).authNetCalls ∧
    ¬ (0 : Int) < (UpsAuthClient.clearToken (World.init stCached)).auth.expiresAt ∧
    (UpsAuthClient.accessToken oracleNone 0
        (UpsAuthClient.clearToken (World.init stCached))).2.authNetCalls =
      (World.init stCached).authNetCalls + 1 :=
  ⟨le_refl 0, c4_clear_token oracleNone 0 (World.init stCached) (le_refl 0)⟩

/-- C7: a successful authentication returning `expires_in = N` at instant
`now` caches the token and stores `expiresAt = now + (N - 60) s` (in
milliseconds, as the code computes it); the stored token is served from
cache exactly while the current time is strictly below that instant, and
once it is not, the next `accessToken()` call performs exactly one auth
network call and returns the newly fetched value. -/
theorem c7_expiry_refresh (o o2 : Oracle) (now now2 : Int) (w : World)
    (data data2 : Json) (p p2 : TokenResponse)
    (h1 : o.authNet w.authNetCalls = NetOutcome.ok data)
    (h2 : TokenResponseSchema.parse data = some p) :
    (UpsAuthClient.authenticate o now w).1 = Except.ok p.access_token ∧
    (UpsAuthClient.authenticate o now w).2.auth.cachedToken = some p.access_token ∧
    (UpsAuthClient.authenticate o now w).2.auth.expiresAt =
      now + (p.expires_in - EXPIRY_BUFFER_S) * 1000 ∧
    (now2 < (UpsAuthClient.authenticate o now w).2.auth.expiresAt →
      UpsAuthClient.accessToken o2 now2 (UpsAuthClient.authenticate o now w).2 =
        (Except.ok p.access_token,
          { (UpsAuthClient.authenticate o now w).2 with
              accessCalls := (UpsAuthClient.authenticate o now w).2.accessCalls + 1 })) ∧
    (¬ now2 < (UpsAuthClient.authenticate o now w).2.auth.expiresAt →
      o2.authNet (UpsAuthClient.authenticate o now w).2.authNetCalls = NetOutcome.ok data2 →
      TokenResponseSchema.parse data2 = some p2 →
      (UpsAuthClient.accessToken o2 now2 (UpsAuthClient.authenticate o now w).2).1 =
        Except.ok p2.access_token ∧
      (UpsAuthClient.accessToken o2 now2 (UpsAuthClient.authenticate o now w).2).2.authNetCalls =
        (UpsAuthClient.authenticate o now w).2.authNetCalls + 1) := by
  have hA := authenticate_ok o now w data p h1 h2
  refine ⟨by rw [hA], by rw [hA], by rw [hA], ?_, ?_⟩
  · intro hlt
    exact accessToken_cacheHit o2 now2 _ p.access_token (by rw [hA]) hlt
  · intro hnlt h3 h4
    have hs := accessToken_missStale o2 now2 (UpsAuthClient.authenticate o now w).2
      p.access_token (by rw [hA]) hnlt
    have hB := authenticate_ok o2 now2
      { (UpsAuthClient.authenticate o now w).2 with
          accessCalls := (UpsAuthClient.authenticate o now w).2.accessCalls + 1 }
      data2 p2 h3 h4
    constructor
    · rw [hs, hB]
    · rw [hs, hB]

/-- Token body builder for witnesses: the full success shape with the given
token and `expires_in`, plus an extra unconsumed field. -/
def tokenBody (tok : String) (expiresIn : Int) : Json :=
  .obj [("token_type", .str "Bearer"),
        ("issued_at", .str "1712000000000"),
        ("client_id", .str "cid"),
        ("access_token", .str tok),
        ("scope", .str "rating"),
        ("expires_in", .num expiresIn),
        ("refresh_count", .num 0),
        ("status", .str "approved"),
        ("extra_field", .str "ignored")]

/-- The parse of `tokenBody tok n` for positive `n`. -/
def tokenParsed (tok : String) (expiresIn : Int) : TokenResponse :=
  { token_type := "Bearer", issued_at := "1712000000000", client_id := "cid",
    access_token := tok, scope := "rating", expires_in := expiresIn,
    refresh_count := 0, status := "approved" }

/-- The empty provider state (no cached token; `expiresAt` 0). -/
def stEmptyC7 : AuthState := { cachedToken := none, expiresAt := 0 }

/-- Oracle whose auth endpoint first issues `tok_first` with a 61-second
TTL, then `tok_refreshed`; the transport side is unused. -/
def oracleC7 : Oracle :=
  { authNet := fun k =>
      if k = 0 then NetOutcome.ok (tokenBody "tok_first" 61)
      else NetOutcome.ok (tokenBody "tok_refreshed" 3600),
    transport := fun _ => NetOutcome.threw Thrown.nonError }

/-- Witness for C7: the spec's `expires_in = 61` scenario. At `now = 0` the
effective TTL is 1 second (`expiresAt = 1000` ms); at `now2 = 2000` the
cache is stale, and the next call fetches `tok_refreshed` with exactly one
more network call. -/
theorem c7_expiry_refresh_witness :
    oracleC7.authNet (World.init stEmptyC7).authNetCalls =
      NetOutcome.ok (tokenBody "tok_first" 61) ∧
    TokenResponseSchema.parse (tokenBody "tok_first" 61) =
      some (tokenParsed "tok_first" 61) ∧
    (UpsAuthClient.authenticate oracleC7 0 (World.init stEmptyC7)).2.auth.expiresAt = 1000 ∧
    ¬ (2000 : Int) <
      (UpsAuthClient.authenticate oracleC7 0 (World.init stEmptyC7)).2.auth.expiresAt ∧
    (UpsAuthClient.accessToken oracleC7 2000
        (UpsAuthClient.authenticate oracleC7 0 (World.init stEmptyC7)).2).1 =
      Except.ok (tokenParsed "tok_refreshed" 3600).access_token ∧
    (UpsAuthClient.accessToken oracleC7 2000
        (UpsAuthClient.authenticate oracleC7 0 (World.init stEmptyC7)).2).2.authNetCalls =
      (UpsAuthClient.authenticate oracleC7 0 (World.init stEmptyC7)).2.authNetCalls + 1 := by
  have h := c7_expiry_refresh oracleC7 oracleC7 0 2000 (World.init stEmptyC7)
    (tokenBody "tok_first" 61) (tokenBody "tok_refreshed" 3600)
    (tokenParsed "tok_first" 61) (tokenParsed "tok_refreshed" 3600) rfl rfl
  have hexp : (UpsAuthClient.authenticate oracleC7 0 (World.init stEmptyC7)).2.auth.expiresAt =
      1000 := by rw [h.2.2.1]; rfl
  have hnlt : ¬ (2000 : Int) <
      (UpsAuthClient.authenticate oracleC7 0 (World.init stEmptyC7)).2.auth.expiresAt := by
    rw [hexp]; decide
  have hre := h.2.2.2.2 hnlt rfl rfl
  exact ⟨rfl, rfl, hexp, hnlt, hre.1, hre.2⟩


/-- After merging the Authorization header, looking it up yields the merged
value. -/
theorem lookup_setHeader (hs : List (String × String)) (k v : String) :
    List.lookup k (setHeader hs k v) = some v := by
  unfold setHeader
  induction hs with
  | nil => simp [List.lookup]
  | cons p t ih =>
    rcases p with ⟨a, b⟩
    rw [List.filter_cons]
    by_cases h : a = k
    · simpa [h] using ih
    · have hd : (decide ((a, b).1 ≠ k)) = true := by simpa using h
      rw [hd]
      simp only [if_true, List.cons_append]
      have hba : (k == a) = false := by
        simp [beq_iff_eq]
        exact fun hh => h hh.symm
      simp only [List.lookup, hba]
      simpa using ih

/-- `executeWithToken` performs exactly one transport call. -/
theorem executeWithToken_transport (o : Oracle) (config : ReqConfig) (token : String)
    (w : World) :
    (HttpClient.executeWithToken o config token w).2.transportCalls = w.transportCalls + 1 := rfl

/-- `retryWithFreshToken` performs at most one transport call. -/
theorem retry_transport_bound (o : Oracle) (now : Int) (config : ReqConfig) (w : World) :
    (HttpClient.retryWithFreshToken o now config w).2.transportCalls ≤ w.transportCalls + 1 := by
  unfold HttpClient.retryWithFreshToken
  rcases h : UpsAuthClient.accessToken o now (UpsAuthClient.clearToken w) with ⟨r, w1⟩
  have hw1 : w1.transportCalls = w.transportCalls := by
    have hfr := (accessToken_frame o now (UpsAuthClient.clearToken w)).1
    rw [h] at hfr
    exact hfr
  cases r with
  | error e => simp [h, hw1]
  | ok tok =>
    simp only [h]
    unfold HttpClient.executeWithToken
    cases ht : o.transport w1.transportCalls with
    | ok d => simp [hw1]
    | threw e =>
      by_cases h401 : is401 e = true
      · simp [h401, hw1]
      · simp [h401, hw1]

/-- `request` performs at most two transport calls beyond those already
recorded. -/
theorem request_transport_bound (o : Oracle) (now : Int) (config : ReqConfig) (w : World) :
    (HttpClient.request o now config w).2.transportCalls ≤ w.transportCalls + 2 := by
  unfold HttpClient.request
  rcases h : UpsAuthClient.accessToken o now w with ⟨r, w1⟩
  have hw1 : w1.transportCalls = w.transportCalls := by
    have hfr := (accessToken_frame o now w).1
    rw [h] at hfr
    exact hfr
  cases r with
  | error e => simp [hw1]
  | ok tok =>
    simp only []
    unfold HttpClient.executeWithToken
    cases ht : o.transport w1.transportCalls with
    | ok d => simp [hw1]
    | threw e =>
      by_cases h401 : is401 e = true
      · simp only [h401, if_true]
        have hb := retry_transport_bound o now config
          { w1 with transportCalls := w1.transportCalls + 1,
                    sentHeaders := w1.sentHeaders ++
                      [setHeader config.headers "Authorization" ("Bearer " ++ tok)] }
        simp only at hb
        omega
      · simp [h401, hw1]

/-- Full run of `retryWithFreshToken` when the reacquisition succeeds: the
token cache is cleared and refilled with the freshly fetched token, exactly
one more transport attempt is made carrying `Bearer <fresh token>`, and its
outcome decides the result (second 401 ↦ `AuthenticationError`, other
failure ↦ `toStructuredError`, success ↦ the decoded body). -/
theorem retryWithFreshToken_run (o : Oracle) (now : Int) (config : ReqConfig)
    (w : World) (data : Json) (p : TokenResponse)
    (h5 : o.authNet w.authNetCalls = NetOutcome.ok data)
    (h6 : TokenResponseSchema.parse data = some p) :
    HttpClient.retryWithFreshToken o now config w =
      ((match o.transport w.transportCalls with
         | NetOutcome.ok d => Except.ok d
         | NetOutcome.threw e =>
           if is401 e then
             Except.error (mkAuthenticationError
               "Authentication failed after token refresh" (some e))
           else Except.error (HttpClient.toStructuredError e)),
       { auth := { cachedToken := some p.access_token,
                   expiresAt := now + (p.expires_in - EXPIRY_BUFFER_S) * 1000 },
         authNetCalls := w.authNetCalls + 1,
         accessCalls := w.accessCalls + 1,
         clearCalls := w.clearCalls + 1,
         transportCalls := w.transportCalls + 1,
         sentHeaders := w.sentHeaders ++
           [setHeader config.headers "Authorization" ("Bearer " ++ p.access_token)] }) := by
  unfold HttpClient.retryWithFreshToken
  rw [accessToken_missNone o now (UpsAuthClient.clearToken w) rfl]
  rw [authenticate_ok o now
    { UpsAuthClient.clearToken w with
        accessCalls := (UpsAuthClient.clearToken w).accessCalls + 1 }
    data p h5 h6]
  cases ht : o.transport w.transportCalls with
  | ok d => simp [HttpClient.executeWithToken, UpsAuthClient.clearToken, ht]
  | threw e =>
    by_cases h401 : is401 e = true
    · simp [HttpClient.executeWithToken, UpsAuthClient.clearToken, ht, h401]
    · simp [HttpClient.executeWithToken, UpsAuthClient.clearToken, ht, h401]

/-- C1: when the first transport attempt fails with status exactly 401 and
the recovery succeeds, `request()` performs exactly one `clearToken()`, one
further `accessToken()` (two in total), and exactly one more transport call
(two in total) whose Authorization header carries the newly acquired token;
the retried attempt's decoded body is returned. -/
theorem c1_single_retry (o : Oracle) (now : Int) (config : ReqConfig) (st : AuthState)
    (t0 : String) (w1 : World) (data : Json) (p : TokenResponse) (body : Json) (e1 : Thrown)
    (h1 : UpsAuthClient.accessToken o now (World.init st) = (Except.ok t0, w1))
    (h2 : o.transport 0 = NetOutcome.threw e1)
    (h3 : e1.isAxiosError = true)
    (h4 : e1.responseStatus = some 401)
    (h5 : o.authNet w1.authNetCalls = NetOutcome.ok data)
    (h6 : TokenResponseSchema.parse data = some p)
    (h7 : o.transport 1 = NetOutcome.ok body) :
    (HttpClient.request o now config (World.init st)).1 = Except.ok body ∧
    (HttpClient.request o now config (World.init st)).2.clearCalls = 1 ∧
    (HttpClient.request o now config (World.init st)).2.accessCalls = 2 ∧
    (HttpClient.request o now config (World.init st)).2.transportCalls = 2 ∧
    (HttpClient.request o now config (World.init st)).2.sentHeaders.getLast?.bind
      (List.lookup "Authorization") = some ("Bearer " ++ p.access_token) := by
  have hf := accessToken_frame o now (World.init st)
  rw [h1] at hf
  obtain ⟨hft, hfc, hfs, hfa⟩ := hf
  simp only [World.init] at hft hfc hfs hfa
  have h401 : is401 e1 = true := by simp [is401, h3, h4]
  have hreq : HttpClient.request o now config (World.init st) =
      HttpClient.retryWithFreshToken o now config
        { w1 with transportCalls := w1.transportCalls + 1,
                  sentHeaders := w1.sentHeaders ++
                    [setHeader config.headers "Authorization" ("Bearer " ++ t0)] } := by
    unfold HttpClient.request
    rw [h1]
    simp only [HttpClient.executeWithToken, hft, h2, h401, if_true]
  have hrun := retryWithFreshToken_run o now config
    { w1 with transportCalls := w1.transportCalls + 1,
              sentHeaders := w1.sentHeaders ++
                [setHeader config.headers "Authorization" ("Bearer " ++ t0)] }
    data p h5 h6
  rw [hreq, hrun]
  simp only [hft, hfc, hfs, hfa, h7, List.nil_append, zero_add]
  refine ⟨trivial, trivial, trivial, trivial, ?_⟩
  simp only [List.getLast?, Option.bind_some]
  exact lookup_setHeader config.headers "Authorization" ("Bearer " ++ p.access_token)

/-- A 401 axios transport failure (response present, status 401). -/
def err401 : Thrown := .axios (some (401, .null)) "Request failed with status code 401"

/-- Oracle for the single-retry scenario: the auth endpoint first issues
`tok_stale`, then `tok_fresh`; the first transport attempt fails with 401
and the second succeeds. -/
def oracleC1 : Oracle :=
  { authNet := fun k =>
      if k = 0 then NetOutcome.ok (tokenBody "tok_stale" 3600)
      else NetOutcome.ok (tokenBody "tok_fresh" 3600),
    transport := fun k =>
      if k = 0 then NetOutcome.threw err401
      else NetOutcome.ok (Json.str "retry_payload") }

/-- A sample request envelope with one caller-supplied header. -/
def cfgTest : ReqConfig :=
  { method := "POST", url := "/x", headers := [("Accept", "application/json")],
    data := none }

/-- The world after the first (fresh) token acquisition in the retry
scenarios: `tok_stale` cached with `expiresAt = 0 + (3600 - 60) * 1000`. -/
def w1c1 : World :=
  { auth := { cachedToken := some "tok_stale", expiresAt := 3540000 },
    authNetCalls := 1, accessCalls := 1, clearCalls := 0, transportCalls := 0,
    sentHeaders := [] }

/-- Witness for C1: concrete run of the spec's `tok_fresh` scenario; the
retry's Authorization header is literally `Bearer tok_fresh` and the retry
payload is returned. -/
theorem c1_single_retry_witness :
    UpsAuthClient.accessToken oracleC1 0 (World.init stEmptyC7) =
      (Except.ok "tok_stale", w1c1) ∧
    oracleC1.transport 0 = NetOutcome.threw err401 ∧
    err401.isAxiosError = true ∧
    err401.responseStatus = some 401 ∧
    oracleC1.authNet w1c1.authNetCalls = NetOutcome.ok (tokenBody "tok_fresh" 3600) ∧
    TokenResponseSchema.parse (tokenBody "tok_fresh" 3600) =
      some (tokenParsed "tok_fresh" 3600) ∧
    oracleC1.transport 1 = NetOutcome.ok (Json.str "retry_payload") ∧
    ((HttpClient.request oracleC1 0 cfgTest (World.init stEmptyC7)).1 =
        Except.ok (Json.str "retry_payload") ∧
      (HttpClient.request oracleC1 0 cfgTest (World.init stEmptyC7)).2.clearCalls = 1 ∧
      (HttpClient.request oracleC1 0 cfgTest (World.init stEmptyC7)).2.accessCalls = 2 ∧
      (HttpClient.request oracleC1 0 cfgTest (World.init stEmptyC7)).2.transportCalls = 2 ∧
      (HttpClient.request oracleC1 0 cfgTest (World.init stEmptyC7)).2.sentHeaders.getLast?.bind
        (List.lookup "Authorization") = some "Bearer tok_fresh") :=
  ⟨rfl, rfl, rfl, rfl, rfl, rfl, rfl,
    c1_single_retry oracleC1 0 cfgTest stEmptyC7 "tok_stale" w1c1
      (tokenBody "tok_fresh" 3600) (tokenParsed "tok_fresh" 3600)
      (Json.str "retry_payload") err401 rfl rfl rfl rfl rfl rfl rfl⟩

/-- C2 (amended: the code's message is capitalized, "Authentication failed
after token refresh"): when both the first and the retried transport attempt
fail with status 401, `request()` returns an `AuthenticationError` with that
message wrapping the second failure as cause, exactly two transport calls
were made, and no execution of `request()` from a fresh world ever makes
more than two transport calls. -/
theorem c2_bounded_retry (o : Oracle) (now : Int) (config : ReqConfig) (st : AuthState)
    (t0 : String) (w1 : World) (data : Json) (p : TokenResponse) (e1 e2 : Thrown)
    (h1 : UpsAuthClient.accessToken o now (World.init st) = (Except.ok t0, w1))
    (h2 : o.transport 0 = NetOutcome.threw e1)
    (h3 : e1.isAxiosError = true)
    (h4 : e1.responseStatus = some 401)
    (h5 : o.authNet w1.authNetCalls = NetOutcome.ok data)
    (h6 : TokenResponseSchema.parse data = some p)
    (h7 : o.transport 1 = NetOutcome.threw e2)
    (h8 : e2.isAxiosError = true)
    (h9 : e2.responseStatus = some 401) :
    (HttpClient.request o now config (World.init st)).1 =
      Except.error (mkAuthenticationError
        "Authentication failed after token refresh" (some e2)) ∧
    (HttpClient.request o now config (World.init st)).2.transportCalls = 2 ∧
    (∀ (o2 : Oracle) (now2 : Int) (config2 : ReqConfig) (st2 : AuthState),
      (HttpClient.request o2 now2 config2 (World.init st2)).2.transportCalls ≤ 2) := by
  have hf := accessToken_frame o now (World.init st)
  rw [h1] at hf
  obtain ⟨hft, hfc, hfs, hfa⟩ := hf
  simp only [World.init] at hft hfc hfs hfa
  have h401a : is401 e1 = true := by simp [is401, h3, h4]
  have h401b : is401 e2 = true := by simp [is401, h8, h9]
  have hreq : HttpClient.request o now config (World.init st) =
      HttpClient.retryWithFreshToken o now config
        { w1 with transportCalls := w1.transportCalls + 1,
                  sentHeaders := w1.sentHeaders ++
                    [setHeader config.headers "Authorization" ("Bearer " ++ t0)] } := by
    unfold HttpClient.request
    rw [h1]
    simp only [HttpClient.executeWithToken, hft, h2, h401a, if_true]
  have hrun := retryWithFreshToken_run o now config
    { w1 with transportCalls := w1.transportCalls + 1,
              sentHeaders := w1.sentHeaders ++
                [setHeader config.headers "Authorization" ("Bearer " ++ t0)] }
    data p h5 h6
  rw [hreq, hrun]
  simp only [hft, hfc, hfs, hfa, h7, h401b, if_true, zero_add]
  refine ⟨trivial, trivial, ?_⟩
  intro o2 now2 config2 st2
  have hb := request_transport_bound o2 now2 config2 (World.init st2)
  simpa [World.init] using hb

/-- Oracle for the double-401 scenario: token acquisitions succeed but every
transport attempt fails with status 401. -/
def oracleC2 : Oracle :=
  { authNet := fun k =>
      if k = 0 then NetOutcome.ok (tokenBody "tok_stale" 3600)
      else NetOutcome.ok (tokenBody "tok_fresh" 3600),
    transport := fun _ => NetOutcome.threw err401 }

/-- Counterexample for C2 as stated: after two consecutive 401s the thrown
error's message is "Authentication failed after token refresh" (capital A,
as `HttpClient.ts` line 50 writes it), not the claimed lowercase
"authentication failed after token refresh". -/
theorem c2_message_counterexample :
    (HttpClient.request oracleC2 0 cfgTest (World.init stEmptyC7)).1 =
      Except.error (mkAuthenticationError
        "Authentication failed after token refresh" (some err401)) ∧
    "Authentication failed after token refresh" ≠
      "authentication failed after token refresh" :=
  ⟨rfl, by decide⟩

/-- Witness for C2 at the concrete double-401 oracle. -/
theorem c2_bounded_retry_witness :
    UpsAuthClient.accessToken oracleC2 0 (World.init stEmptyC7) =
      (Except.ok "tok_stale", w1c1) ∧
    oracleC2.transport 0 = NetOutcome.threw err401 ∧
    oracleC2.authNet w1c1.authNetCalls = NetOutcome.ok (tokenBody "tok_fresh" 3600) ∧
    oracleC2.transport 1 = NetOutcome.threw err401 ∧
    ((HttpClient.request oracleC2 0 cfgTest (World.init stEmptyC7)).1 =
        Except.error (mkAuthenticationError
          "Authentication failed after token refresh" (some err401)) ∧
      (HttpClient.request oracleC2 0 cfgTest (World.init stEmptyC7)).2.transportCalls = 2 ∧
      (∀ (o2 : Oracle) (now2 : Int) (config2 : ReqConfig) (st2 : AuthState),
        (HttpClient.request o2 now2 config2 (World.init st2)).2.transportCalls ≤ 2)) :=
  ⟨rfl, rfl, rfl, rfl,
    c2_bounded_retry oracleC2 0 cfgTest stEmptyC7 "tok_stale" w1c1
      (tokenBody "tok_fresh" 3600) (tokenParsed "tok_fresh" 3600) err401 err401
      rfl rfl rfl rfl rfl rfl rfl rfl rfl⟩

/-- C5 (amended: a thrown value that is not an `Error` instance yields no
cause and the message "Unknown HTTP error"): the Executor's failure
classification maps status 429 to `RateLimitError`, any other present
status to `CarrierApiError` with exactly that status, an absent status to
`CarrierApiError` with status 0, and a non-transport exception to
`CarrierApiError` with status 0 carrying the original error as cause when
it is an `Error` instance. -/
theorem c5_status_mapping (resp : Json) (msg m2 : String) (s : Nat) (hs : s ≠ 429) :
    HttpClient.toStructuredError (Thrown.axios (some (429, resp)) msg) =
      mkRateLimitError none (some (Thrown.axios (some (429, resp)) msg)) ∧
    HttpClient.toStructuredError (Thrown.axios (some (s, resp)) msg) =
      mkCarrierApiError ("HTTP " ++ toString s) s none
        (some (Thrown.axios (some (s, resp)) msg)) ∧
    HttpClient.toStructuredError (Thrown.axios none msg) =
      mkCarrierApiError msg 0 none (some (Thrown.axios none msg)) ∧
    HttpClient.toStructuredError (Thrown.jsErr m2) =
      mkCarrierApiError m2 0 none (some (Thrown.jsErr m2)) ∧
    HttpClient.toStructuredError Thrown.nonError =
      mkCarrierApiError "Unknown HTTP error" 0 none none := by
  refine ⟨rfl, ?_, rfl, rfl, rfl⟩
  simp [HttpClient.toStructuredError, Thrown.isAxiosError, Thrown.responseStatus, hs]

/-- Witness for C5 at status 500. -/
theorem c5_status_mapping_witness :
    (500 : Nat) ≠ 429 ∧
    (HttpClient.toStructuredError (Thrown.axios (some (429, Json.null)) "server error") =
      mkRateLimitError none (some (Thrown.axios (some (429, Json.null)) "server error")) ∧
    HttpClient.toStructuredError (Thrown.axios (some (500, Json.null)) "server error") =
      mkCarrierApiError ("HTTP " ++ toString (500 : Nat)) 500 none
        (some (Thrown.axios (some (500, Json.null)) "server error")) ∧
    HttpClient.toStructuredError (Thrown.axios none "server error") =
      mkCarrierApiError "server error" 0 none
        (some (Thrown.axios none "server error")) ∧
    HttpClient.toStructuredError (Thrown.jsErr "local failure") =
      mkCarrierApiError "local failure" 0 none (some (Thrown.jsErr "local failure")) ∧
    HttpClient.toStructuredError Thrown.nonError =
      mkCarrierApiError "Unknown HTTP error" 0 none none) :=
  ⟨by decide,
    c5_status_mapping Json.null "server error" "local failure" 500 (by decide)⟩

/-- Counterexample for C5 as stated: the non-transport exception case does
not always carry the original error as cause. A thrown non-`Error` value is
classified as `CarrierApiError` with status 0, but its `cause` option is
empty (the code attaches the cause only after an `instanceof Error`
check). -/
theorem c5_nonerror_cause_counterexample :
    HttpClient.toStructuredError Thrown.nonError =
      mkCarrierApiError "Unknown HTTP error" 0 none none ∧
    (HttpClient.toStructuredError Thrown.nonError).causeOf = none ∧
    (HttpClient.toStructuredError Thrown.nonError).causeOf ≠ some Thrown.nonError :=
  ⟨rfl, rfl, fun h => Option.noConfusion h⟩

/-- The carrier error body of the spec's HTTP 400 scenario. -/
def scenarioBody : Json :=
  .obj [("response", .obj [("errors", .arr
    [.obj [("code", .str "10400"), ("message", .str "Invalid grant_type")]])])]

/-- C6: classification of token-endpoint failures. Without a carrier
response the error is `CarrierApiError` with status 0. With a response
whose body parses to a nonempty carrier error list, the first entry's
message is used; otherwise the generic "UPS OAuth request failed (HTTP
status)" message. Status 401/403 map to `AuthenticationError`, 429 to
`RateLimitError`, and any other status to `CarrierApiError` carrying that
status and the optional carrier code; in particular the HTTP 400 body
`{response:{errors:[{code:"10400",message:"Invalid grant_type"}]}}` yields
status 400, carrier code "10400", and message "Invalid grant_type". -/
theorem c6_auth_failure_mapping (data data2 : Json) (msg msg2 : String)
    (fe : UpsErrorEntry) (rest : List UpsErrorEntry) (status2 : Nat)
    (hparse : UpsErrorResponseSchema.safeParse data = some (fe :: rest))
    (hparse2 : (UpsErrorResponseSchema.safeParse data2).bind List.head? = none)
    (hs2 : ¬(status2 = 401 ∨ status2 = 403)) (hs2b : status2 ≠ 429) :
    UpsAuthClient.toStructuredError (Thrown.axios none msg) =
      mkCarrierApiError ("UPS OAuth request failed: " ++ msg) 0 none
        (some (Thrown.axios none msg)) ∧
    UpsAuthClient.toStructuredError (Thrown.jsErr msg) =
      mkCarrierApiError ("UPS OAuth request failed: " ++ msg) 0 none
        (some (Thrown.jsErr msg)) ∧
    UpsAuthClient.toStructuredError (Thrown.axios (some (401, data)) msg) =
      mkAuthenticationError fe.message (some (Thrown.axios (some (401, data)) msg)) ∧
    UpsAuthClient.toStructuredError (Thrown.axios (some (403, data)) msg) =
      mkAuthenticationError fe.message (some (Thrown.axios (some (403, data)) msg)) ∧
    UpsAuthClient.toStructuredError (Thrown.axios (some (429, data)) msg) =
      mkRateLimitError (some fe.message) (some (Thrown.axios (some (429, data)) msg)) ∧
    UpsAuthClient.toStructuredError (Thrown.axios (some (status2, data)) msg) =
      mkCarrierApiError fe.message status2 (some fe.code)
        (some (Thrown.axios (some (status2, data)) msg)) ∧
    UpsAuthClient.toStructuredError (Thrown.axios (some (status2, data2)) msg2) =
      mkCarrierApiError ("UPS OAuth request failed (HTTP " ++ toString status2 ++ ")")
        status2 none (some (Thrown.axios (some (status2, data2)) msg2)) ∧
    UpsAuthClient.toStructuredError
        (Thrown.axios (some (400, scenarioBody)) "Request failed with status code 400") =
      mkCarrierApiError "Invalid grant_type" 400 (some "10400")
        (some (Thrown.axios (some (400, scenarioBody))
          "Request failed with status code 400")) := by
  refine ⟨rfl, rfl, ?_, ?_, ?_, ?_, ?_, rfl⟩
  · simp [UpsAuthClient.toStructuredError, hparse]
  · simp [UpsAuthClient.toStructuredError, hparse]
  · simp [UpsAuthClient.toStructuredError, hparse]
  · simp [UpsAuthClient.toStructuredError, hparse, hs2, hs2b]
  · simp [UpsAuthClient.toStructuredError, hparse2, hs2, hs2b]

/-- The first carrier error entry of the HTTP 400 scenario body. -/
def scenarioEntry : UpsErrorEntry := { code := "10400", message := "Invalid grant_type" }

/-- Witness for C6: the HTTP 400 scenario body with a 500-status "other"
branch and a parse-failing body. -/
theorem c6_auth_failure_mapping_witness :
    UpsErrorResponseSchema.safeParse scenarioBody = some [scenarioEntry] ∧
    (UpsErrorResponseSchema.safeParse Json.null).bind List.head? = none ∧
    ¬((500 : Nat) = 401 ∨ (500 : Nat) = 403) ∧
    (500 : Nat) ≠ 429 ∧
    (UpsAuthClient.toStructuredError (Thrown.axios none "connect ECONNREFUSED") =
      mkCarrierApiError ("UPS OAuth request failed: " ++ "connect ECONNREFUSED") 0 none
        (some (Thrown.axios none "connect ECONNREFUSED")) ∧
    UpsAuthClient.toStructuredError (Thrown.jsErr "connect ECONNREFUSED") =
      mkCarrierApiError ("UPS OAuth request failed: " ++ "connect ECONNREFUSED") 0 none
        (some (Thrown.jsErr "connect ECONNREFUSED")) ∧
    UpsAuthClient.toStructuredError (Thrown.axios (some (401, scenarioBody)) "connect ECONNREFUSED") =
      mkAuthenticationError "Invalid grant_type"
        (some (Thrown.axios (some (401, scenarioBody)) "connect ECONNREFUSED")) ∧
    UpsAuthClient.toStructuredError (Thrown.axios (some (403, scenarioBody)) "connect ECONNREFUSED") =
      mkAuthenticationError "Invalid grant_type"
        (some (Thrown.axios (some (403, scenarioBody)) "connect ECONNREFUSED")) ∧
    UpsAuthClient.toStructuredError (Thrown.axios (some (429, scenarioBody)) "connect ECONNREFUSED") =
      mkRateLimitError (some "Invalid grant_type")
        (some (Thrown.axios (some (429, scenarioBody)) "connect ECONNREFUSED")) ∧
    UpsAuthClient.toStructuredError (Thrown.axios (some (500, scenarioBody)) "connect ECONNREFUSED") =
      mkCarrierApiError "Invalid grant_type" 500 (some "10400")
        (some (Thrown.axios (some (500, scenarioBody)) "connect ECONNREFUSED")) ∧
    UpsAuthClient.toStructuredError (Thrown.axios (some (500, Json.null)) "boom") =
      mkCarrierApiError ("UPS OAuth request failed (HTTP " ++ toString (500 : Nat) ++ ")")
        500 none (some (Thrown.axios (some (500, Json.null)) "boom")) ∧
    UpsAuthClient.toStructuredError
        (Thrown.axios (some (400, scenarioBody)) "Request failed with status code 400") =
      mkCarrierApiError "Invalid grant_type" 400 (some "10400")
        (some (Thrown.axios (some (400, scenarioBody))
          "Request failed with status code 400"))) :=
  ⟨rfl, rfl, by decide, by decide,
    c6_auth_failure_mapping scenarioBody Json.null "connect ECONNREFUSED" "boom"
      scenarioEntry [] 500 rfl rfl (by decide) (by decide)⟩

/-- A success body carrying only `access_token` and a positive `expires_in`:
the claim treats the remaining fields as optional, the schema does not. -/
def tokenBodyMissing : Json :=
  .obj [("access_token", .str "tok_partial"), ("expires_in", .num 3600)]

/-- Oracle whose auth endpoint resolves with the field-missing body. -/
def oracleC8 : Oracle :=
  { authNet := fun _ => NetOutcome.ok tokenBodyMissing,
    transport := fun _ => NetOutcome.threw Thrown.nonError }

/-- Oracle whose auth endpoint resolves with the full success body
(including an extra unconsumed field). -/
def oracleC8Full : Oracle :=
  { authNet := fun _ => NetOutcome.ok (tokenBody "tok_full" 3600),
    transport := fun _ => NetOutcome.threw Thrown.nonError }

/-- C8 (amended: the token schema requires all eight fields — `token_type`,
`issued_at`, `client_id`, `access_token`, `scope`, `expires_in`,
`refresh_count`, `status` — so a body is accepted iff it parses under that
schema; fields beyond those eight are ignored): on a cache miss, a body
accepted by the schema is cached and its token returned, while a rejected
body — including one containing only a string `access_token` and a positive
`expires_in` — yields a structured error and leaves the provider state
unchanged (nothing partial is cached). -/
theorem c8_token_schema (o : Oracle) (now : Int) (w : World) (data : Json)
    (p : TokenResponse)
    (hmiss : w.auth.cachedToken = none)
    (hnet : o.authNet w.authNetCalls = NetOutcome.ok data) :
    (TokenResponseSchema.parse data = some p →
      (UpsAuthClient.accessToken o now w).1 = Except.ok p.access_token ∧
      (UpsAuthClient.accessToken o now w).2.auth.cachedToken = some p.access_token) ∧
    (TokenResponseSchema.parse data = none →
      (UpsAuthClient.accessToken o now w).1 =
        Except.error (UpsAuthClient.toStructuredError zodTokenError) ∧
      (UpsAuthClient.accessToken o now w).2.auth = w.auth) ∧
    TokenResponseSchema.parse (tokenBody "tok_full" 3600) =
      some (tokenParsed "tok_full" 3600) ∧
    TokenResponseSchema.parse tokenBodyMissing = none := by
  refine ⟨?_, ?_, rfl, rfl⟩
  · intro hp
    rw [accessToken_missNone o now w hmiss,
      authenticate_ok o now { w with accessCalls := w.accessCalls + 1 } data p hnet hp]
    exact ⟨rfl, rfl⟩
  · intro hp
    rw [accessToken_missNone o now w hmiss,
      authenticate_badBody o now { w with accessCalls := w.accessCalls + 1 } data hnet hp]
    exact ⟨rfl, rfl⟩

/-- Witness for C8: the full body (with an extra field) is accepted and
cached; the field-missing body is rejected by the schema. -/
theorem c8_token_schema_witness :
    (World.init stEmptyC7).auth.cachedToken = none ∧
    oracleC8Full.authNet (World.init stEmptyC7).authNetCalls =
      NetOutcome.ok (tokenBody "tok_full" 3600) ∧
    TokenResponseSchema.parse (tokenBody "tok_full" 3600) =
      some (tokenParsed "tok_full" 3600) ∧
    (UpsAuthClient.accessToken oracleC8Full 0 (World.init stEmptyC7)).1 =
      Except.ok "tok_full" ∧
    (UpsAuthClient.accessToken oracleC8Full 0 (World.init stEmptyC7)).2.auth.cachedToken =
      some "tok_full" ∧
    TokenResponseSchema.parse tokenBodyMissing = none :=
  ⟨rfl, rfl,
    (c8_token_schema oracleC8Full 0 (World.init stEmptyC7) (tokenBody "tok_full" 3600)
      (tokenParsed "tok_full" 3600) rfl rfl).2.2.1,
    ((c8_token_schema oracleC8Full 0 (World.init stEmptyC7) (tokenBody "tok_full" 3600)
      (tokenParsed "tok_full" 3600) rfl rfl).1 rfl).1,
    ((c8_token_schema oracleC8Full 0 (World.init stEmptyC7) (tokenBody "tok_full" 3600)
      (tokenParsed "tok_full" 3600) rfl rfl).1 rfl).2,
    (c8_token_schema oracleC8Full 0 (World.init stEmptyC7) (tokenBody "tok_full" 3600)
      (tokenParsed "tok_full" 3600) rfl rfl).2.2.2⟩

/-- Counterexample for C8 as stated: a success body containing a string
`access_token` and a positive `expires_in` but missing the other schema
fields (`token_type`, `issued_at`, `client_id`, `scope`, `refresh_count`,
`status`) is not accepted: the parse fails, `accessToken()` returns a
structured error, and nothing is cached. -/
theorem c8_required_fields_counterexample :
    TokenResponseSchema.parse tokenBodyMissing = none ∧
    (UpsAuthClient.accessToken oracleC8 0 (World.init stEmptyC7)).1 =
      Except.error (UpsAuthClient.toStructuredError zodTokenError) ∧
    (UpsAuthClient.accessToken oracleC8 0 (World.init stEmptyC7)).2.auth = stEmptyC7 :=
  ⟨rfl, rfl, rfl⟩

/-- C9: a domain input rejected by `RateRequestSchema` makes `execute()`
throw a `ValidationError` and return the world unchanged: no transport
call, no auth network call, no state change of any kind — validation runs
before any network activity. -/
theorem c9_validation_short_circuit (requestOption : String) (o : Oracle) (now : Int)
    (input : Json) (w : World)
    (h : RateRequestSchema.parse input = none) :
    UpsRatingOperation.execute requestOption o now input w =
      (Except.error (mkValidationError zodRateRequestError.message), w) := by
  unfold UpsRatingOperation.execute
  rw [h]

/-- Witness for C9 at the empty-object input. -/
theorem c9_validation_short_circuit_witness :
    RateRequestSchema.parse (Json.obj []) = none ∧
    UpsRatingOperation.execute "Shop" oracleNone 0 (Json.obj []) (World.init stEmptyC7) =
      (Except.error (mkValidationError zodRateRequestError.message),
        World.init stEmptyC7) :=
  ⟨rfl, c9_validation_short_circuit "Shop" oracleNone 0 (Json.obj [])
    (World.init stEmptyC7) rfl⟩

/-- C10: error handling of `fetchRates` and the capability boundary. A
caught `CarrierApiError` (including its `RateLimitError` subclass) is
rethrown unchanged; any other caught `Error` — the Executor's
`AuthenticationError` after two 401s included — is rethrown as
`CarrierApiError` with status 0, message "UPS rating request failed", and
the original error as cause; a rating-response schema parse failure is
wrapped the same way; and no error leaving `execute()` is ever of the
`AuthenticationError` class. -/
theorem c10_error_wrapping (requestOption : String) (now : Int) (body : Json)
    (oA : Oracle) (wA wA1 : World) (eA : Thrown)
    (oB : Oracle) (wB wB1 : World) (eB : Thrown)
    (oC : Oracle) (wC wC1 : World) (dC : Json)
    (hA : HttpClient.request oA now
        { method := "POST", url := "/api/rating/v2409/" ++ requestOption,
          headers := [], data := some body } wA = (Except.error eA, wA1))
    (hA2 : eA.isCarrierApiError = true)
    (hB : HttpClient.request oB now
        { method := "POST", url := "/api/rating/v2409/" ++ requestOption,
          headers := [], data := some body } wB = (Except.error eB, wB1))
    (hB2 : eB.isCarrierApiError = false)
    (hB3 : eB.isErrorInstance = true)
    (hC : HttpClient.request oC now
        { method := "POST", url := "/api/rating/v2409/" ++ requestOption,
          headers := [], data := some body } wC = (Except.ok dC, wC1))
    (hC2 : UpsRateResponseSchema.parse dC = none) :
    UpsRatingOperation.fetchRates requestOption oA now body wA =
      (Except.error eA, wA1) ∧
    UpsRatingOperation.fetchRates requestOption oB now body wB =
      (Except.error (mkCarrierApiError "UPS rating request failed" 0 none (some eB)),
        wB1) ∧
    UpsRatingOperation.fetchRates requestOption oC now body wC =
      (Except.error (mkCarrierApiError "UPS rating request failed" 0 none
        (some zodRateResponseError)), wC1) ∧
    (∀ (oD : Oracle) (input : Json) (w0 : World) (e2 : Thrown),
      (UpsRatingOperation.execute requestOption oD now input w0).1 = Except.error e2 →
      e2.clsOf ≠ some ErrClass.authenticationError) := by
  refine ⟨?_, ?_, ?_, ?_⟩
  · unfold UpsRatingOperation.fetchRates
    rw [hA]
    simp [hA2]
  · unfold UpsRatingOperation.fetchRates
    rw [hB]
    simp [hB2, hB3]
  · unfold UpsRatingOperation.fetchRates
    rw [hC]
    simp [hC2]
  · intro oD input w0 e2 hres
    unfold UpsRatingOperation.execute UpsRatingOperation.fetchRates at hres
    split at hres
    · have he : e2 = mkValidationError zodRateRequestError.message := by
        simpa using hres.symm
      rw [he]
      simp [mkValidationError, Thrown.clsOf]
    · split at hres
      · rename_i e4 w4 heq
        have he2 : e2 = e4 := by simpa using hres.symm
        rw [he2]
        split at heq
        · split at heq
          · simp at heq
          · have hfst := congrArg Prod.fst heq
            simp only [Except.error.injEq] at hfst
            rw [← hfst]
            simp [mkCarrierApiError, Thrown.clsOf]
        · rename_i e3 w3 heq2
          split at heq
          · rename_i hca
            have hfst := congrArg Prod.fst heq
            simp only [Except.error.injEq] at hfst
            rw [← hfst]
            cases e3 with
            | app cls code m st cc cause =>
              simp only [Thrown.isCarrierApiError, decide_eq_true_eq] at hca
              rcases hca with hc | hc <;> simp [Thrown.clsOf, hc]
            | axios resp m => simp [Thrown.isCarrierApiError] at hca
            | jsErr m => simp [Thrown.isCarrierApiError] at hca
            | nonError => simp [Thrown.isCarrierApiError] at hca
          · have hfst := congrArg Prod.fst heq
            simp only [Except.error.injEq] at hfst
            rw [← hfst]
            simp [mkCarrierApiError, Thrown.clsOf]
      · simp at hres

/-- A 500 axios transport failure. -/
def err500 : Thrown := .axios (some (500, Json.null)) "Request failed with status code 500"

/-- Oracle whose transport always fails with 500 (a `CarrierApiError` after
classification). -/
def oracleC10A : Oracle :=
  { authNet := fun _ => NetOutcome.ok (tokenBody "tok_a" 3600),
    transport := fun _ => NetOutcome.threw err500 }

/-- Oracle whose transport always fails with 401 (yielding the Executor's
`AuthenticationError` after the bounded retry). -/
def oracleC10B : Oracle :=
  { authNet := fun k =>
      if k = 0 then NetOutcome.ok (tokenBody "tok_stale" 3600)
      else NetOutcome.ok (tokenBody "tok_fresh" 3600),
    transport := fun _ => NetOutcome.threw err401 }

/-- Oracle whose transport resolves with a body the rating schema
rejects. -/
def oracleC10C : Oracle :=
  { authNet := fun _ => NetOutcome.ok (tokenBody "tok_c" 3600),
    transport := fun _ => NetOutcome.ok Json.null }

/-- Final world of the 500-failure run. -/
def wC10A : World :=
  { auth := { cachedToken := some "tok_a", expiresAt := 3540000 },
    authNetCalls := 1, accessCalls := 1, clearCalls := 0, transportCalls := 1,
    sentHeaders := [[("Authorization", "Bearer tok_a")]] }

/-- Final world of the double-401 run. -/
def wC10B : World :=
  { auth := { cachedToken := some "tok_fresh", expiresAt := 3540000 },
    authNetCalls := 2, accessCalls := 2, clearCalls := 1, transportCalls := 2,
    sentHeaders := [[("Authorization", "Bearer tok_stale")],
                    [("Authorization", "Bearer tok_fresh")]] }

/-- Final world of the junk-body run. -/
def wC10C : World :=
  { auth := { cachedToken := some "tok_c", expiresAt := 3540000 },
    authNetCalls := 1, accessCalls := 1, clearCalls := 0, transportCalls := 1,
    sentHeaders := [[("Authorization", "Bearer tok_c")]] }

/-- The classified 500 failure. -/
def eC10A : Thrown := mkCarrierApiError "HTTP 500" 500 none (some err500)

/-- The Executor's error after two consecutive 401s. -/
def eC10B : Thrown :=
  mkAuthenticationError "Authentication failed after token refresh" (some err401)

/-- The wrapped form in which the double-401 failure leaves `execute()`. -/
def eC10D : Thrown := mkCarrierApiError "UPS rating request failed" 0 none (some eC10B)

/-- A domain rate request accepted by `RateRequestSchema`. -/
def validRateInput : Json :=
  .obj [("origin", .obj [("line1", .str "123 Main St"), ("city", .str "New York"),
          ("stateCode", .str "NY"), ("postalCode", .str "10001"),
          ("countryCode", .str "US")]),
        ("destination", .obj [("line1", .str "456 Oak Ave"), ("city", .str "Los Angeles"),
          ("stateCode", .str "CA"), ("postalCode", .str "90001"),
          ("countryCode", .str "US")]),
        ("packages", .arr [.obj [("weightLbs", .num 5), ("lengthIn", .num 10),
          ("widthIn", .num 8), ("heightIn", .num 6)]])]

/-- Witness for C10: the three wrapping branches at concrete oracles, and a
full `execute()` run in which the Executor's `AuthenticationError` leaves
the capability wrapped as a `CarrierApiError` (so the Authentication class
does not cross the boundary). -/
theorem c10_error_wrapping_witness :
    HttpClient.request oracleC10A 0
      { method := "POST", url := "/api/rating/v2409/" ++ "Shop", headers := [],
        data := some Json.null } (World.init stEmptyC7) = (Except.error eC10A, wC10A) ∧
    eC10A.isCarrierApiError = true ∧
    HttpClient.request oracleC10B 0
      { method := "POST", url := "/api/rating/v2409/" ++ "Shop", headers := [],
        data := some Json.null } (World.init stEmptyC7) = (Except.error eC10B, wC10B) ∧
    eC10B.isCarrierApiError = false ∧
    eC10B.isErrorInstance = true ∧
    HttpClient.request oracleC10C 0
      { method := "POST", url := "/api/rating/v2409/" ++ "Shop", headers := [],
        data := some Json.null } (World.init stEmptyC7) = (Except.ok Json.null, wC10C) ∧
    UpsRateResponseSchema.parse Json.null = none ∧
    UpsRatingOperation.fetchRates "Shop" oracleC10A 0 Json.null (World.init stEmptyC7) =
      (Except.error eC10A, wC10A) ∧
    UpsRatingOperation.fetchRates "Shop" oracleC10B 0 Json.null (World.init stEmptyC7) =
      (Except.error (mkCarrierApiError "UPS rating request failed" 0 none (some eC10B)),
        wC10B) ∧
    UpsRatingOperation.fetchRates "Shop" oracleC10C 0 Json.null (World.init stEmptyC7) =
      (Except.error (mkCarrierApiError "UPS rating request failed" 0 none
        (some zodRateResponseError)), wC10C) ∧
    (UpsRatingOperation.execute "Shop" oracleC10B 0 validRateInput
      (World.init stEmptyC7)).1 = Except.error eC10D ∧
    eC10D.clsOf ≠ some ErrClass.authenticationError :=
  have thm := c10_error_wrapping "Shop" 0 Json.null
    oracleC10A (World.init stEmptyC7) wC10A eC10A
    oracleC10B (World.init stEmptyC7) wC10B eC10B
    oracleC10C (World.init stEmptyC7) wC10C Json.null
    rfl rfl rfl rfl rfl rfl rfl
  ⟨rfl, rfl, rfl, rfl, rfl, rfl, rfl, thm.1, thm.2.1, thm.2.2.1, rfl,
    thm.2.2.2 oracleC10B validRateInput (World.init stEmptyC7) eC10D rfl⟩
